import Mathlib

/-!
Shallow embedding of the NeubAItics/ASR Streamlit applications
(`bart_model.py`, `w2v_bart.py`, `whisp_t5.py`).

Each application is a single script rerun on every user action.  We embed
each user-triggered handler (file upload, microphone record, the Process
Audio button, and the stored-results rendering) as a pure function from the
session state to a new session state plus a trace of user-visible events.
External collaborators (pydub decoding, the speech-to-text model, the
summarizer) are opaque black boxes and are passed in as oracle functions;
filesystem faults during temp-file staging are injected through a
`StageFault` argument.  The `stagedFileExistsAfter` and `uncaughtError`
fields of an outcome record whether the staged temp file survives the
handler and whether an exception escapes the handler; the latter happens in
`bart_model.py` and `w2v_bart.py` when a `finally:` block reads the
`temp_path` variable that was never bound because `NamedTemporaryFile`
creation or the write into it raised first (Python then raises `NameError`
from the cleanup code; Streamlit executes the script in a fresh module
namespace on each rerun, so the name is unbound at that point).
-/

/-- Raw byte strings (file contents, microphone captures). -/
abbrev Bytes := List Nat

/-- A decoded pydub `AudioSegment`: sample rate, channel count, samples. -/
structure Waveform where
  rate : Nat
  channels : Nat
  samples : List Int
deriving DecidableEq, Repr

/-- pydub `AudioSegment.set_frame_rate`: the resampling itself is external
DSP; the observable configuration is the new rate. -/
def set_frame_rate (w : Waveform) (r : Nat) : Waveform :=
  { w with rate := r }

/-- pydub `AudioSegment.set_channels`. -/
def set_channels (w : Waveform) (c : Nat) : Waveform :=
  { w with channels := c }

/-- Contents of the session `audio_data_for_processing` `BytesIO`: either a
WAV re-export of a decoded segment (the upload path) or the raw recorded
bytes stored as-is (the microphone path, which performs no decoding). -/
inductive AudioData where
  | wav (w : Waveform)
  | raw (bs : Bytes)
deriving DecidableEq, Repr

/-- Whether the stored audio is a normalized (decoded and re-encoded) WAV
buffer rather than raw undecoded bytes. -/
def AudioData.isWavBuffer : AudioData → Bool
  | .wav _ => true
  | .raw _ => false

/-- One laid-out piece of the FPDF document: a `multi_cell` text block or a
`pdf.ln` vertical break. -/
inductive PdfLine where
  | cell (text : String)
  | vspace (h : Nat)
deriving DecidableEq, Repr

/-- User-visible effects emitted by a handler, in program order. -/
inductive Event where
  | errorShown (msg : String)
  | warningShown (msg : String)
  | successShown (msg : String)
  | infoShown (msg : String)
  | transcriberInvoked (staged : AudioData)
  | summarizerInvoked (text : String) (maxLen minLen : Nat) (doSample : Bool)
  | downloadOffered (filename : String) (contents : String)
  | pdfOffered (doc : List PdfLine)
deriving DecidableEq, Repr

/-- Discriminator for transcription-adapter invocation events. -/
def Event.isTranscriberCall : Event → Bool
  | .transcriberInvoked _ => true
  | _ => false

/-- Discriminator for summarization-adapter invocation events. -/
def Event.isSummarizerCall : Event → Bool
  | .summarizerInvoked _ _ _ _ => true
  | _ => false

/-- Discriminator for error messages. -/
def Event.isErrorShown : Event → Bool
  | .errorShown _ => true
  | _ => false

/-- Discriminator for an offered PDF download. -/
def Event.isPdfDownload : Event → Bool
  | .pdfOffered _ => true
  | _ => false

/-- Injected fault for a temp-file staging step: everything succeeds, the
`NamedTemporaryFile` constructor raises (no file is created), or the write
into the already-created file raises (the file exists on disk but the
`temp_path` variable is never assigned, because the assignment follows the
write in the source). -/
inductive StageFault where
  | ok
  | createFails
  | writeFails
deriving DecidableEq, Repr

/-- Result of the `mic_recorder` widget: a capture with bytes, `None`
(no recording yet), or a truthy value without a `bytes` key. -/
inductive RecordOutcome where
  | recorded (bs : Bytes)
  | noneYet
  | failedOrEmpty
deriving DecidableEq, Repr

/-- Oracle for the speech-to-text collaborator, applied to the contents of
the staged file (which are exactly the session audio bytes). -/
abbrev Transcriber := AudioData → Except String String

/-- Oracle for the summarization collaborator: text, max_length,
min_length, do_sample. -/
abbrev Summarizer := String → Nat → Nat → Bool → Except String String

/-- Oracle for pydub container decoding (`AudioSegment.from_file`). -/
abbrev Decoder := Bytes → Except String Waveform

/-- Result of running one handler: the new session, the emitted events,
whether the staged temp file still exists afterwards, and an exception (if
any) that escaped the handler. -/
structure Outcome (S : Type) where
  session : S
  events : List Event
  stagedFileExistsAfter : Bool
  uncaughtError : Option String
deriving DecidableEq, Repr

/-- Session state of `bart_model.py` and `w2v_bart.py`:
`audio_data_for_processing` (pre-initialized to `None`), and the
`transcript` / `summary` keys, which are absent (`none`) until first set. -/
structure SessionBW where
  audio : Option AudioData
  transcript : Option String
  summary : Option String
deriving DecidableEq, Repr

/-- Fresh session of `bart_model.py` / `w2v_bart.py`. -/
def SessionBW.init : SessionBW := ⟨none, none, none⟩

/-- Python `NameError` message raised by a `finally:` block referencing the
unbound `temp_path`. -/
def nameErrorTempPath : String := "NameError: name temp_path is not defined"

namespace BartModel

/-- Upload handler of `bart_model.py` (lines 52-70): stage the uploaded
bytes to a named temp file, decode with pydub, re-export as WAV into a
`BytesIO`, store it in the session; on any exception show an error; in the
`finally:` block remove the temp path if it exists.  `temp_path` is bound
only after a successful create and write, so on `createFails` /
`writeFails` the cleanup raises `NameError` (and on `writeFails` the
created file additionally leaks).  The except branch does not reset the
stored session audio. -/
def upload (decode : Decoder) (fault : StageFault) (input : Bytes)
    (s : SessionBW) : Outcome SessionBW :=
  match fault with
  | .createFails =>
      { session := s
        events := [.errorShown "Error processing uploaded file: temp file creation failed"]
        stagedFileExistsAfter := false
        uncaughtError := some nameErrorTempPath }
  | .writeFails =>
      { session := s
        events := [.errorShown "Error processing uploaded file: temp file write failed"]
        stagedFileExistsAfter := true
        uncaughtError := some nameErrorTempPath }
  | .ok =>
      match decode input with
      | .error e =>
          { session := s
            events := [.errorShown ("Error processing uploaded file: " ++ e)]
            stagedFileExistsAfter := false
            uncaughtError := none }
      | .ok seg =>
          { session := { s with audio := some (.wav seg) }
            events := [.successShown "Uploaded audio length shown"]
            stagedFileExistsAfter := false
            uncaughtError := none }

/-- Microphone handler of `bart_model.py` (lines 83-95): the recorded bytes
are wrapped in a `BytesIO` and stored directly — no decoding, no
re-encoding, no normalization. -/
def record (r : RecordOutcome) (s : SessionBW) : Outcome SessionBW :=
  match r with
  | .recorded bs =>
      { session := { s with audio := some (.raw bs) }
        events := [.successShown "Audio recorded successfully!"]
        stagedFileExistsAfter := false
        uncaughtError := none }
  | .noneYet =>
      { session := s
        events := [.infoShown "No audio recorded yet."]
        stagedFileExistsAfter := false
        uncaughtError := none }
  | .failedOrEmpty =>
      { session := s
        events := [.warningShown "Recording failed or was empty."]
        stagedFileExistsAfter := false
        uncaughtError := none }

/-- Process Audio handler of `bart_model.py` (lines 100-139): if no audio
is stored, warn and stop.  Otherwise stage the audio to a temp WAV file,
transcribe it, store the transcript, and — only when the local `transcript`
value is truthy (non-empty) — invoke the summarizer with max_length 150,
min_length 40, do_sample False and store its result.  The transcription
`finally:` block removes the temp path; as in `upload`, `temp_path` is
unbound when creation or the write fails, so the cleanup raises
`NameError`, which aborts the rest of the handler. -/
def process (fault : StageFault) (transcribe : Transcriber)
    (summarize : Summarizer) (s : SessionBW) : Outcome SessionBW :=
  match s.audio with
  | none =>
      { session := s
        events := [.warningShown "Please upload or record audio before processing."]
        stagedFileExistsAfter := false
        uncaughtError := none }
  | some a =>
      match fault with
      | .createFails =>
          { session := s
            events := [.errorShown "Transcription failed: temp file creation failed"]
            stagedFileExistsAfter := false
            uncaughtError := some nameErrorTempPath }
      | .writeFails =>
          { session := s
            events := [.errorShown "Transcription failed: temp file write failed"]
            stagedFileExistsAfter := true
            uncaughtError := some nameErrorTempPath }
      | .ok =>
          match transcribe a with
          | .error e =>
              { session := s
                events := [.transcriberInvoked a,
                           .errorShown ("Transcription failed: " ++ e)]
                stagedFileExistsAfter := false
                uncaughtError := none }
          | .ok t =>
              if t.isEmpty then
                { session := { s with transcript := some t }
                  events := [.transcriberInvoked a,
                             .successShown "Transcription Complete!"]
                  stagedFileExistsAfter := false
                  uncaughtError := none }
              else
                match summarize t 150 40 false with
                | .error e =>
                    { session := { s with transcript := some t }
                      events := [.transcriberInvoked a,
                                 .successShown "Transcription Complete!",
                                 .summarizerInvoked t 150 40 false,
                                 .errorShown ("Summarization failed: " ++ e)]
                      stagedFileExistsAfter := false
                      uncaughtError := none }
                | .ok sum =>
                    { session := { s with transcript := some t, summary := some sum }
                      events := [.transcriberInvoked a,
                                 .successShown "Transcription Complete!",
                                 .summarizerInvoked t 150 40 false,
                                 .successShown "Summary Complete!"]
                      stagedFileExistsAfter := false
                      uncaughtError := none }

/-- Stored-results section of `bart_model.py` (lines 142-160): a download
button whose `data` is exactly the stored string, for each of the
`transcript` and `summary` keys that is present. -/
def renderResults (s : SessionBW) : List Event :=
  (match s.transcript with
   | some t => [.downloadOffered "transcript.txt" t]
   | none => []) ++
  (match s.summary with
   | some u => [.downloadOffered "summary.txt" u]
   | none => [])

/-- One user action against the `bart_model.py` page, with its external
collaborator outcomes. -/
inductive Action where
  | upload (decode : Decoder) (fault : StageFault) (input : Bytes)
  | record (r : RecordOutcome)
  | process (fault : StageFault) (transcribe : Transcriber) (summarize : Summarizer)

/-- Session-state effect of one action. -/
def step (s : SessionBW) : Action → SessionBW
  | .upload d f i => (upload d f i s).session
  | .record r => (record r s).session
  | .process f tr su => (process f tr su s).session

/-- Session state after a sequence of actions from a fresh session. -/
def run (acts : List Action) : SessionBW :=
  acts.foldl step SessionBW.init

end BartModel

namespace W2vBart

/-- Upload handler of `w2v_bart.py` (lines 51-70): identical to the
`bart_model.py` upload handler except that the decoded segment is first
passed through `set_frame_rate(16000).set_channels(1)` before the WAV
re-export.  `temp_path` has the same unbound-on-fault behaviour. -/
def upload (decode : Decoder) (fault : StageFault) (input : Bytes)
    (s : SessionBW) : Outcome SessionBW :=
  match fault with
  | .createFails =>
      { session := s
        events := [.errorShown "Error processing uploaded file: temp file creation failed"]
        stagedFileExistsAfter := false
        uncaughtError := some nameErrorTempPath }
  | .writeFails =>
      { session := s
        events := [.errorShown "Error processing uploaded file: temp file write failed"]
        stagedFileExistsAfter := true
        uncaughtError := some nameErrorTempPath }
  | .ok =>
      match decode input with
      | .error e =>
          { session := s
            events := [.errorShown ("Error processing uploaded file: " ++ e)]
            stagedFileExistsAfter := false
            uncaughtError := none }
      | .ok seg =>
          { session := { s with audio := some (.wav (set_channels (set_frame_rate seg 16000) 1)) }
            events := [.successShown "Uploaded audio length shown"]
            stagedFileExistsAfter := false
            uncaughtError := none }

/-- Microphone handler of `w2v_bart.py` (lines 83-95): the recorded bytes
are stored directly in a `BytesIO`, with no decoding, no resampling and no
downmixing — the 16000 Hz / mono conversion happens only on the upload
path. -/
def record (r : RecordOutcome) (s : SessionBW) : Outcome SessionBW :=
  match r with
  | .recorded bs =>
      { session := { s with audio := some (.raw bs) }
        events := [.successShown "Audio recorded successfully!"]
        stagedFileExistsAfter := false
        uncaughtError := none }
  | .noneYet =>
      { session := s
        events := [.infoShown "No audio recorded yet."]
        stagedFileExistsAfter := false
        uncaughtError := none }
  | .failedOrEmpty =>
      { session := s
        events := [.warningShown "Recording failed or was empty."]
        stagedFileExistsAfter := false
        uncaughtError := none }

/-- Process Audio handler of `w2v_bart.py` (lines 100-138): textually the
same control flow as the `bart_model.py` handler; only the transcription
call differs (`asr_pipeline(temp_path)` instead of `whisper.load_audio`
plus `whisper_model.transcribe`), and both are abstracted into the
`transcribe` oracle applied to the staged audio. -/
def process (fault : StageFault) (transcribe : Transcriber)
    (summarize : Summarizer) (s : SessionBW) : Outcome SessionBW :=
  match s.audio with
  | none =>
      { session := s
        events := [.warningShown "Please upload or record audio before processing."]
        stagedFileExistsAfter := false
        uncaughtError := none }
  | some a =>
      match fault with
      | .createFails =>
          { session := s
            events := [.errorShown "Transcription failed: temp file creation failed"]
            stagedFileExistsAfter := false
            uncaughtError := some nameErrorTempPath }
      | .writeFails =>
          { session := s
            events := [.errorShown "Transcription failed: temp file write failed"]
            stagedFileExistsAfter := true
            uncaughtError := some nameErrorTempPath }
      | .ok =>
          match transcribe a with
          | .error e =>
              { session := s
                events := [.transcriberInvoked a,
                           .errorShown ("Transcription failed: " ++ e)]
                stagedFileExistsAfter := false
                uncaughtError := none }
          | .ok t =>
              if t.isEmpty then
                { session := { s with transcript := some t }
                  events := [.transcriberInvoked a,
                             .successShown "Transcription Complete!"]
                  stagedFileExistsAfter := false
                  uncaughtError := none }
              else
                match summarize t 150 40 false with
                | .error e =>
                    { session := { s with transcript := some t }
                      events := [.transcriberInvoked a,
                                 .successShown "Transcription Complete!",
                                 .summarizerInvoked t 150 40 false,
                                 .errorShown ("Summarization failed: " ++ e)]
                      stagedFileExistsAfter := false
                      uncaughtError := none }
                | .ok sum =>
                    { session := { s with transcript := some t, summary := some sum }
                      events := [.transcriberInvoked a,
                                 .successShown "Transcription Complete!",
                                 .summarizerInvoked t 150 40 false,
                                 .successShown "Summary Complete!"]
                      stagedFileExistsAfter := false
                      uncaughtError := none }

/-- Stored-results section of `w2v_bart.py` (lines 141-159): identical to
the `bart_model.py` one. -/
def renderResults (s : SessionBW) : List Event :=
  (match s.transcript with
   | some t => [.downloadOffered "transcript.txt" t]
   | none => []) ++
  (match s.summary with
   | some u => [.downloadOffered "summary.txt" u]
   | none => [])

/-- One user action against the `w2v_bart.py` page. -/
inductive Action where
  | upload (decode : Decoder) (fault : StageFault) (input : Bytes)
  | record (r : RecordOutcome)
  | process (fault : StageFault) (transcribe : Transcriber) (summarize : Summarizer)

/-- Session-state effect of one action. -/
def step (s : SessionBW) : Action → SessionBW
  | .upload d f i => (upload d f i s).session
  | .record r => (record r s).session
  | .process f tr su => (process f tr su s).session

/-- Session state after a sequence of actions from a fresh session. -/
def run (acts : List Action) : SessionBW :=
  acts.foldl step SessionBW.init

end W2vBart

namespace WhispT5

/-- Session state of `whisp_t5.py`: `audio_data_for_processing`,
`transcript_text` and `summary_text` are all pre-initialized to `None`
(lines 46-51). -/
structure Session where
  audio : Option AudioData
  transcript_text : Option String
  summary_text : Option String
deriving DecidableEq, Repr

/-- Fresh session of `whisp_t5.py`. -/
def Session.init : Session := ⟨none, none, none⟩

/-- Upload handler of `whisp_t5.py` (lines 69-89): same staging, decoding
and WAV re-export as `bart_model.py`, but `temp_path` is initialized to
`None` before the `try:` (so the `finally:` guard `if temp_path and
os.path.exists(temp_path)` never raises `NameError`), and the except branch
resets the stored session audio to `None`.  When the write into the created
temp file fails, `temp_path` is still `None`, so the guard skips removal
and the created file leaks. -/
def upload (decode : Decoder) (fault : StageFault) (input : Bytes)
    (s : Session) : Outcome Session :=
  match fault with
  | .createFails =>
      { session := { s with audio := none }
        events := [.errorShown "Error processing uploaded file: temp file creation failed. Please ensure FFmpeg is installed and the file is not corrupted."]
        stagedFileExistsAfter := false
        uncaughtError := none }
  | .writeFails =>
      { session := { s with audio := none }
        events := [.errorShown "Error processing uploaded file: temp file write failed. Please ensure FFmpeg is installed and the file is not corrupted."]
        stagedFileExistsAfter := true
        uncaughtError := none }
  | .ok =>
      match decode input with
      | .error e =>
          { session := { s with audio := none }
            events := [.errorShown ("Error processing uploaded file: " ++ e ++ ". Please ensure FFmpeg is installed and the file is not corrupted.")]
            stagedFileExistsAfter := false
            uncaughtError := none }
      | .ok seg =>
          { session := { s with audio := some (.wav seg) }
            events := [.infoShown "Uploaded audio length shown"]
            stagedFileExistsAfter := false
            uncaughtError := none }

/-- Microphone handler of `whisp_t5.py` (lines 102-115): stores the raw
recorded bytes directly (no normalization); on a failed or empty recording
it resets the stored audio to `None`. -/
def record (r : RecordOutcome) (s : Session) : Outcome Session :=
  match r with
  | .recorded bs =>
      { session := { s with audio := some (.raw bs) }
        events := [.successShown "Audio recorded successfully!"]
        stagedFileExistsAfter := false
        uncaughtError := none }
  | .noneYet =>
      { session := s
        events := [.infoShown "No audio recorded yet."]
        stagedFileExistsAfter := false
        uncaughtError := none }
  | .failedOrEmpty =>
      { session := { s with audio := none }
        events := [.warningShown "Recording failed or was empty."]
        stagedFileExistsAfter := false
        uncaughtError := none }

/-- Warning text of `whisp_t5.py` line 137. -/
def warnTranscriptMsg : String :=
  "Some characters in the transcript could not be rendered in the PDF (due to font limitations). They have been replaced."

/-- Warning text of `whisp_t5.py` line 149. -/
def warnSummaryMsg : String :=
  "Some characters in the summary could not be rendered in the PDF (due to font limitations). They have been replaced."

/-- Whether every character of the string is representable in the latin-1
encoding used by the built-in FPDF fonts. -/
def encodable_latin1 (s : String) : Bool :=
  s.data.all (fun c => c.toNat < 256)

/-- Python `s.encode(latin-1, replace).decode(latin-1)`: every character
outside latin-1 is replaced by the substitute glyph. -/
def latin1_replace (s : String) : String :=
  String.mk (s.data.map (fun c => if c.toNat < 256 then c else '?'))

/-- FPDF `multi_cell` on a built-in font: lays out the text, or raises
`UnicodeEncodeError` when the text is not latin-1 encodable. -/
def multi_cell (text : String) : Except String PdfLine :=
  if encodable_latin1 text then .ok (.cell text) else .error "UnicodeEncodeError"

/-- An assembled PDF document together with the warnings shown while
building it. -/
structure PdfResult where
  doc : List PdfLine
  warnings : List String
deriving DecidableEq, Repr

/-- Function `generate_pdf` of `whisp_t5.py` (lines 120-152): transcript header,
transcript body (falling back, on `UnicodeEncodeError`, to a warning plus
the latin-1-replaced text — the fallback call is itself unguarded, so a
failure there would escape), then, if `summary` is truthy, the summary
header and body with the same fallback.  The function is defined in the
source but never called by any handler. -/
def generate_pdf (transcript : String) (summary : Option String) :
    Except String PdfResult :=
  let head : List PdfLine := [.cell "--- Transcript ---", .vspace 5]
  let tRes : Except String (List PdfLine × List String) :=
    match multi_cell transcript with
    | .ok l => .ok ([l], [])
    | .error _ =>
        match multi_cell (latin1_replace transcript) with
        | .ok l => .ok ([l], [warnTranscriptMsg])
        | .error e => .error e
  match tRes with
  | .error e => .error e
  | .ok tPart =>
      let body := head ++ tPart.1 ++ [.vspace 10]
      match summary with
      | none => .ok { doc := body, warnings := tPart.2 }
      | some u =>
          if u.isEmpty then .ok { doc := body, warnings := tPart.2 }
          else
            match multi_cell u with
            | .ok l =>
                .ok { doc := body ++ [.cell "--- Summary ---", .vspace 5, l]
                      warnings := tPart.2 }
            | .error _ =>
                match multi_cell (latin1_replace u) with
                | .ok l =>
                    .ok { doc := body ++ [.cell "--- Summary ---", .vspace 5, l]
                          warnings := tPart.2 ++ [warnSummaryMsg] }
                | .error e => .error e

/-- Process Audio handler of `whisp_t5.py` (lines 155-223).  The first two
statements unconditionally clear `transcript_text` and `summary_text`
before the audio check.  With audio present, the handler stages the audio
(with `current_wav_temp_path` initialized to `None`, so a staging fault
never raises from the cleanup, though on a write fault the created file
leaks), transcribes, stores the transcript, and offers the transcript.txt
download inside the `try:`.  After the `try/finally`, if the stored
transcript is truthy the summarizer runs (max_length 150, min_length 40,
do_sample False) and on success the summary plus its summary.txt download
are emitted; otherwise the skipping warning is shown. -/
def process (fault : StageFault) (transcribe : Transcriber)
    (summarize : Summarizer) (s : Session) : Outcome Session :=
  let s0 : Session := { s with transcript_text := none, summary_text := none }
  match s0.audio with
  | none =>
      { session := s0
        events := [.warningShown "Please upload or record audio before processing."]
        stagedFileExistsAfter := false
        uncaughtError := none }
  | some a =>
      match fault with
      | .createFails =>
          { session := s0
            events := [.errorShown "Transcription failed: temp file creation failed. Please check the audio file and ensure Whisper model loaded correctly.",
                       .warningShown "Skipping summarization as no transcript was generated."]
            stagedFileExistsAfter := false
            uncaughtError := none }
      | .writeFails =>
          { session := s0
            events := [.errorShown "Transcription failed: temp file write failed. Please check the audio file and ensure Whisper model loaded correctly.",
                       .warningShown "Skipping summarization as no transcript was generated."]
            stagedFileExistsAfter := true
            uncaughtError := none }
      | .ok =>
          match transcribe a with
          | .error e =>
              { session := s0
                events := [.transcriberInvoked a,
                           .errorShown ("Transcription failed: " ++ e ++ ". Please check the audio file and ensure Whisper model loaded correctly."),
                           .warningShown "Skipping summarization as no transcript was generated."]
                stagedFileExistsAfter := false
                uncaughtError := none }
          | .ok t =>
              if t.isEmpty then
                { session := { s0 with transcript_text := some t }
                  events := [.transcriberInvoked a,
                             .successShown "Transcription Complete!",
                             .downloadOffered "transcript.txt" t,
                             .warningShown "Skipping summarization as no transcript was generated."]
                  stagedFileExistsAfter := false
                  uncaughtError := none }
              else
                match summarize t 150 40 false with
                | .error e =>
                    { session := { s0 with transcript_text := some t }
                      events := [.transcriberInvoked a,
                                 .successShown "Transcription Complete!",
                                 .downloadOffered "transcript.txt" t,
                                 .summarizerInvoked t 150 40 false,
                                 .errorShown ("Summarization failed: " ++ e ++ ". Try adjusting length parameters or using a shorter transcript.")]
                      stagedFileExistsAfter := false
                      uncaughtError := none }
                | .ok sum =>
                    { session := { s0 with transcript_text := some t, summary_text := some sum }
                      events := [.transcriberInvoked a,
                                 .successShown "Transcription Complete!",
                                 .downloadOffered "transcript.txt" t,
                                 .summarizerInvoked t 150 40 false,
                                 .successShown "Summary Complete!",
                                 .downloadOffered "summary.txt" sum]
                      stagedFileExistsAfter := false
                      uncaughtError := none }

/-- One user action against the `whisp_t5.py` page. -/
inductive Action where
  | upload (decode : Decoder) (fault : StageFault) (input : Bytes)
  | record (r : RecordOutcome)
  | process (fault : StageFault) (transcribe : Transcriber) (summarize : Summarizer)

/-- Session-state effect of one action. -/
def step (s : Session) : Action → Session
  | .upload d f i => (upload d f i s).session
  | .record r => (record r s).session
  | .process f tr su => (process f tr su s).session

/-- Session state after a sequence of actions from a fresh session. -/
def run (acts : List Action) : Session :=
  acts.foldl step Session.init

end WhispT5

/-- Sample transcriber: the collaborator returns the text "hello world". -/
def exTranscriber : Transcriber := fun _ => .ok "hello world"

/-- Sample transcriber: the collaborator returns empty text (for instance
on silent audio). -/
def exEmptyTranscriber : Transcriber := fun _ => .ok ""

/-- Sample transcriber: the collaborator raises with message "boom". -/
def exFailTranscriber : Transcriber := fun _ => .error "boom"

/-- Sample summarizer: the collaborator returns "hi". -/
def exSummarizer : Summarizer := fun _ _ _ _ => .ok "hi"

/-- Sample decoder: decoding succeeds with a fixed stereo 44100 Hz
segment. -/
def exDecoder : Decoder := fun _ => .ok ⟨44100, 2, [0]⟩

/-- Sample decoder: decoding fails (corrupt container). -/
def exFailDecoder : Decoder := fun _ => .error "decode error"

/-- Summary-section lines that `generate_pdf` appends for a given stored
summary value: nothing when the summary is absent or empty, otherwise the
header, a break and the (possibly latin-1-replaced) summary text. -/
def summaryDocPart : Option String → List PdfLine
  | none => []
  | some u =>
      if u.isEmpty then []
      else if WhispT5.encodable_latin1 u then
        [.cell "--- Summary ---", .vspace 5, .cell u]
      else
        [.cell "--- Summary ---", .vspace 5, .cell (WhispT5.latin1_replace u)]

/-- Warnings that `generate_pdf` emits for a given stored summary value. -/
def summaryWarnPart : Option String → List String
  | none => []
  | some u =>
      if u.isEmpty then []
      else if WhispT5.encodable_latin1 u then []
      else [WhispT5.warnSummaryMsg]

/-- Action sequence refuting C1 on `bart_model.py`: a successful run sets
transcript "hello world" and summary "hi"; a second Process click whose
transcription returns empty text overwrites the transcript with the empty
string while the summary stays populated. -/
def c1CexActs : List BartModel.Action :=
  [.record (.recorded [1]),
   .process .ok exTranscriber exSummarizer,
   .process .ok exEmptyTranscriber exSummarizer]

/-- Action sequence exercising the C1 invariant non-vacuously. -/
def c1WitnessActsB : List BartModel.Action :=
  [.record (.recorded [1]), .process .ok exTranscriber exSummarizer]

/-- Action sequence exercising the C1 invariant non-vacuously
(`w2v_bart.py`). -/
def c1WitnessActsV : List W2vBart.Action :=
  [.record (.recorded [1]), .process .ok exTranscriber exSummarizer]

/-- Action sequence exercising the C1 invariant non-vacuously
(`whisp_t5.py`). -/
def c1WitnessActsW : List WhispT5.Action :=
  [.record (.recorded [1]), .process .ok exTranscriber exSummarizer]

/-- One step of `bart_model.py` preserves "summary present implies
transcript present": the transcript key is never deleted and the summary is
only written together with a transcript write. -/
theorem bart_step_inv (s : SessionBW) (act : BartModel.Action)
    (h : s.summary.isSome = true → s.transcript.isSome = true) :
    (BartModel.step s act).summary.isSome = true →
      (BartModel.step s act).transcript.isSome = true := by
  cases act with
  | upload d f i =>
      cases f with
      | createFails => exact h
      | writeFails => exact h
      | ok =>
          cases hd : d i with
          | error e => simpa [BartModel.step, BartModel.upload, hd] using h
          | ok seg => simpa [BartModel.step, BartModel.upload, hd] using h
  | record r =>
      cases r <;> simpa [BartModel.step, BartModel.record] using h
  | process f tr su =>
      cases ha : s.audio with
      | none => simpa [BartModel.step, BartModel.process, ha] using h
      | some a =>
          cases f with
          | createFails => simpa [BartModel.step, BartModel.process, ha] using h
          | writeFails => simpa [BartModel.step, BartModel.process, ha] using h
          | ok =>
              cases ht : tr a with
              | error e => simpa [BartModel.step, BartModel.process, ha, ht] using h
              | ok t =>
                  cases he : t.isEmpty with
                  | true => simp [BartModel.step, BartModel.process, ha, ht, he]
                  | false =>
                      cases hs : su t 150 40 false with
                      | error e => simp [BartModel.step, BartModel.process, ha, ht, he, hs]
                      | ok sum => simp [BartModel.step, BartModel.process, ha, ht, he, hs]

/-- Folding `bart_model.py` steps preserves the weak invariant. -/
theorem bart_foldl_inv (acts : List BartModel.Action) :
    ∀ s : SessionBW, (s.summary.isSome = true → s.transcript.isSome = true) →
      ((acts.foldl BartModel.step s).summary.isSome = true →
        (acts.foldl BartModel.step s).transcript.isSome = true) := by
  induction acts with
  | nil => intro s h; exact h
  | cons a rest ih => intro s h; exact ih _ (bart_step_inv s a h)

/-- One step of `w2v_bart.py` preserves "summary present implies transcript
present". -/
theorem w2v_step_inv (s : SessionBW) (act : W2vBart.Action)
    (h : s.summary.isSome = true → s.transcript.isSome = true) :
    (W2vBart.step s act).summary.isSome = true →
      (W2vBart.step s act).transcript.isSome = true := by
  cases act with
  | upload d f i =>
      cases f with
      | createFails => exact h
      | writeFails => exact h
      | ok =>
          cases hd : d i with
          | error e => simpa [W2vBart.step, W2vBart.upload, hd] using h
          | ok seg => simpa [W2vBart.step, W2vBart.upload, hd] using h
  | record r =>
      cases r <;> simpa [W2vBart.step, W2vBart.record] using h
  | process f tr su =>
      cases ha : s.audio with
      | none => simpa [W2vBart.step, W2vBart.process, ha] using h
      | some a =>
          cases f with
          | createFails => simpa [W2vBart.step, W2vBart.process, ha] using h
          | writeFails => simpa [W2vBart.step, W2vBart.process, ha] using h
          | ok =>
              cases ht : tr a with
              | error e => simpa [W2vBart.step, W2vBart.process, ha, ht] using h
              | ok t =>
                  cases he : t.isEmpty with
                  | true => simp [W2vBart.step, W2vBart.process, ha, ht, he]
                  | false =>
                      cases hs : su t 150 40 false with
                      | error e => simp [W2vBart.step, W2vBart.process, ha, ht, he, hs]
                      | ok sum => simp [W2vBart.step, W2vBart.process, ha, ht, he, hs]

/-- Folding `w2v_bart.py` steps preserves the weak invariant. -/
theorem w2v_foldl_inv (acts : List W2vBart.Action) :
    ∀ s : SessionBW, (s.summary.isSome = true → s.transcript.isSome = true) →
      ((acts.foldl W2vBart.step s).summary.isSome = true →
        (acts.foldl W2vBart.step s).transcript.isSome = true) := by
  induction acts with
  | nil => intro s h; exact h
  | cons a rest ih => intro s h; exact ih _ (w2v_step_inv s a h)

/-- One step of `whisp_t5.py` preserves the strong invariant: a populated
summary implies a populated, non-empty transcript (the Process handler
clears both fields before anything else). -/
theorem whisp_step_inv (s : WhispT5.Session) (act : WhispT5.Action)
    (h : ∀ u, s.summary_text = some u →
      ∃ t, s.transcript_text = some t ∧ t.isEmpty = false) :
    ∀ u, (WhispT5.step s act).summary_text = some u →
      ∃ t, (WhispT5.step s act).transcript_text = some t ∧ t.isEmpty = false := by
  cases act with
  | upload d f i =>
      cases f with
      | createFails => simpa [WhispT5.step, WhispT5.upload] using h
      | writeFails => simpa [WhispT5.step, WhispT5.upload] using h
      | ok =>
          cases hd : d i with
          | error e => simpa [WhispT5.step, WhispT5.upload, hd] using h
          | ok seg => simpa [WhispT5.step, WhispT5.upload, hd] using h
  | record r =>
      cases r <;> simpa [WhispT5.step, WhispT5.record] using h
  | process f tr su =>
      cases ha : s.audio with
      | none => simp [WhispT5.step, WhispT5.process, ha]
      | some a =>
          cases f with
          | createFails => simp [WhispT5.step, WhispT5.process, ha]
          | writeFails => simp [WhispT5.step, WhispT5.process, ha]
          | ok =>
              cases ht : tr a with
              | error e => simp [WhispT5.step, WhispT5.process, ha, ht]
              | ok t =>
                  cases he : t.isEmpty with
                  | true => simp [WhispT5.step, WhispT5.process, ha, ht, he]
                  | false =>
                      cases hs : su t 150 40 false with
                      | error e => simp [WhispT5.step, WhispT5.process, ha, ht, he, hs]
                      | ok sum =>
                          intro u hu
                          exact ⟨t, by simp [WhispT5.step, WhispT5.process, ha, ht, he, hs], he⟩

/-- Folding `whisp_t5.py` steps preserves the strong invariant. -/
theorem whisp_foldl_inv (acts : List WhispT5.Action) :
    ∀ s : WhispT5.Session,
      (∀ u, s.summary_text = some u →
        ∃ t, s.transcript_text = some t ∧ t.isEmpty = false) →
      ∀ u, (acts.foldl WhispT5.step s).summary_text = some u →
        ∃ t, (acts.foldl WhispT5.step s).transcript_text = some t ∧ t.isEmpty = false := by
  induction acts with
  | nil => intro s h; exact h
  | cons a rest ih => intro s h; exact ih _ (whisp_step_inv s a h)

/-- C1 counterexample: in `bart_model.py`, after the action sequence
`c1CexActs` the session summary is populated ("hi") while the session
transcript is the empty string, so the invariant "summary is never
populated while transcript is unset or empty" fails; the final state was
not produced by a summary write preceded in the same action by a non-empty
transcript write. -/
theorem c1_counterexample :
    (BartModel.run c1CexActs).summary = some "hi" ∧
    (BartModel.run c1CexActs).transcript = some "" := ⟨rfl, rfl⟩

/-- C1 amended: for every action sequence, in `bart_model.py` and
`w2v_bart.py` the summary is never populated while the transcript is unset
(though a later action can leave it empty), and in `whisp_t5.py` the
summary is never populated while the transcript is unset or empty. -/
theorem c1_summary_invariant_amended :
    ∀ (actsB : List BartModel.Action) (actsV : List W2vBart.Action)
      (actsW : List WhispT5.Action),
      ((BartModel.run actsB).summary.isSome = true →
        (BartModel.run actsB).transcript.isSome = true) ∧
      ((W2vBart.run actsV).summary.isSome = true →
        (W2vBart.run actsV).transcript.isSome = true) ∧
      (∀ u, (WhispT5.run actsW).summary_text = some u →
        ∃ t, (WhispT5.run actsW).transcript_text = some t ∧ t.isEmpty = false) := by
  intro actsB actsV actsW
  refine ⟨bart_foldl_inv actsB SessionBW.init ?_,
          w2v_foldl_inv actsV SessionBW.init ?_,
          whisp_foldl_inv actsW WhispT5.Session.init ?_⟩
  · intro hx; simp [SessionBW.init] at hx
  · intro hx; simp [SessionBW.init] at hx
  · intro u hu; simp [WhispT5.Session.init] at hu

/-- Witness for the amended C1 invariant at concrete runs in which the
summary really is populated. -/
theorem c1_summary_invariant_amended_witness :
    (BartModel.run c1WitnessActsB).transcript.isSome = true ∧
    (W2vBart.run c1WitnessActsV).transcript.isSome = true ∧
    (∃ t, (WhispT5.run c1WitnessActsW).transcript_text = some t ∧
      t.isEmpty = false) := by
  refine ⟨(c1_summary_invariant_amended c1WitnessActsB c1WitnessActsV c1WitnessActsW).1 (by rfl),
          (c1_summary_invariant_amended c1WitnessActsB c1WitnessActsV c1WitnessActsW).2.1 (by rfl),
          (c1_summary_invariant_amended c1WitnessActsB c1WitnessActsV c1WitnessActsW).2.2 "hi" (by rfl)⟩

/-- C2: evaluating the staging operations at injected faults shows the
claim is violated by the code.  In `bart_model.py` a write fault leaves the
staged file on disk and makes the cleanup itself raise `NameError` (the
`finally:` block reads the never-bound `temp_path`); a creation fault also
raises `NameError` from the cleanup; the same happens in the Process Audio
staging step; and in `whisp_t5.py` a write fault leaks the staged file
even though its guarded cleanup does not raise. -/
theorem c2_staging_cleanup_code_bug :
    (BartModel.upload exDecoder .writeFails [1] SessionBW.init).stagedFileExistsAfter = true ∧
    (BartModel.upload exDecoder .writeFails [1] SessionBW.init).uncaughtError = some nameErrorTempPath ∧
    (BartModel.upload exDecoder .createFails [1] SessionBW.init).uncaughtError = some nameErrorTempPath ∧
    (BartModel.process .writeFails exTranscriber exSummarizer ⟨some (.raw [1]), none, none⟩).uncaughtError = some nameErrorTempPath ∧
    (BartModel.process .writeFails exTranscriber exSummarizer ⟨some (.raw [1]), none, none⟩).stagedFileExistsAfter = true ∧
    (WhispT5.upload exDecoder .writeFails [1] WhispT5.Session.init).stagedFileExistsAfter = true ∧
    (WhispT5.upload exDecoder .writeFails [1] WhispT5.Session.init).uncaughtError = none ∧
    (WhispT5.process .writeFails exTranscriber exSummarizer ⟨some (.raw [1]), none, none⟩).stagedFileExistsAfter = true :=
  ⟨rfl, rfl, rfl, rfl, rfl, rfl, rfl, rfl⟩

/-- C10: clicking Process in `whisp_t5.py` with no audio staged leaves the
stored transcript and summary cleared (erasing any previously computed
results), leaves the audio untouched, shows only the warning, and invokes
no adapter. -/
theorem c10_process_clears_results :
    ∀ (s : WhispT5.Session) (f : StageFault) (tr : Transcriber) (su : Summarizer),
      s.audio = none →
      (WhispT5.process f tr su s).session.transcript_text = none ∧
      (WhispT5.process f tr su s).session.summary_text = none ∧
      (WhispT5.process f tr su s).session.audio = s.audio ∧
      (WhispT5.process f tr su s).events =
        [.warningShown "Please upload or record audio before processing."] := by
  intro s f tr su h
  simp [WhispT5.process, h]

/-- Witness for C10: a session that had computed results loses them on a
no-audio Process click. -/
theorem c10_process_clears_results_witness :
    (WhispT5.process .ok exTranscriber exSummarizer
      ⟨none, some "previous transcript", some "previous summary"⟩).session.transcript_text = none ∧
    (WhispT5.process .ok exTranscriber exSummarizer
      ⟨none, some "previous transcript", some "previous summary"⟩).session.summary_text = none ∧
    (WhispT5.process .ok exTranscriber exSummarizer
      ⟨none, some "previous transcript", some "previous summary"⟩).session.audio =
      (⟨none, some "previous transcript", some "previous summary"⟩ : WhispT5.Session).audio ∧
    (WhispT5.process .ok exTranscriber exSummarizer
      ⟨none, some "previous transcript", some "previous summary"⟩).events =
      [.warningShown "Please upload or record audio before processing."] :=
  c10_process_clears_results ⟨none, some "previous transcript", some "previous summary"⟩
    .ok exTranscriber exSummarizer rfl

/-- C3 counterexample: with audio present and the transcription adapter
succeeding with empty text, the stored transcript is the empty string and
no error is shown (the transcription stage succeeded), yet the summarizer
is never invoked — so "on transcription success the summarizer is invoked"
fails as stated. -/
theorem c3_counterexample :
    (BartModel.process .ok exEmptyTranscriber exSummarizer
      ⟨some (.raw [1]), none, none⟩).session.transcript = some "" ∧
    (BartModel.process .ok exEmptyTranscriber exSummarizer
      ⟨some (.raw [1]), none, none⟩).events.filter Event.isErrorShown = [] ∧
    (BartModel.process .ok exEmptyTranscriber exSummarizer
      ⟨some (.raw [1]), none, none⟩).events.filter Event.isSummarizerCall = [] :=
  ⟨rfl, rfl, rfl⟩

/-- C3 amended: with audio present and a fault-free staging, the
transcription adapter is invoked exactly once with the staged audio, the
stored transcript is exactly the returned text, and — when that text is
non-empty — the summarizer is invoked exactly once with that exact text,
max_length 150, min_length 40 and do_sample False, after which the stored
summary is exactly the result of the summarizer; in both `bart_model.py` and
`w2v_bart.py`. -/
theorem c3_pipeline_amended :
    ∀ (s : SessionBW) (a : AudioData) (tr : Transcriber) (su : Summarizer)
      (t sum : String),
      s.audio = some a → tr a = .ok t → t.isEmpty = false →
      su t 150 40 false = .ok sum →
      ((BartModel.process .ok tr su s).events.filter Event.isTranscriberCall =
          [.transcriberInvoked a] ∧
       (BartModel.process .ok tr su s).session.transcript = some t ∧
       (BartModel.process .ok tr su s).events.filter Event.isSummarizerCall =
          [.summarizerInvoked t 150 40 false] ∧
       (BartModel.process .ok tr su s).session.summary = some sum) ∧
      ((W2vBart.process .ok tr su s).events.filter Event.isTranscriberCall =
          [.transcriberInvoked a] ∧
       (W2vBart.process .ok tr su s).session.transcript = some t ∧
       (W2vBart.process .ok tr su s).events.filter Event.isSummarizerCall =
          [.summarizerInvoked t 150 40 false] ∧
       (W2vBart.process .ok tr su s).session.summary = some sum) := by
  intro s a tr su t sum ha ht he hs
  constructor
  · refine ⟨?_, ?_, ?_, ?_⟩ <;>
      simp [BartModel.process, ha, ht, he, hs, List.filter,
        Event.isTranscriberCall, Event.isSummarizerCall]
  · refine ⟨?_, ?_, ?_, ?_⟩ <;>
      simp [W2vBart.process, ha, ht, he, hs, List.filter,
        Event.isTranscriberCall, Event.isSummarizerCall]

/-- Witness for the amended C3 at the scenario given in the spec: the adapter
returns "hello world", the summarizer returns "hi". -/
theorem c3_pipeline_amended_witness :
    ((BartModel.process .ok exTranscriber exSummarizer
        ⟨some (.raw [1]), none, none⟩).events.filter Event.isTranscriberCall =
        [.transcriberInvoked (.raw [1])] ∧
     (BartModel.process .ok exTranscriber exSummarizer
        ⟨some (.raw [1]), none, none⟩).session.transcript = some "hello world" ∧
     (BartModel.process .ok exTranscriber exSummarizer
        ⟨some (.raw [1]), none, none⟩).events.filter Event.isSummarizerCall =
        [.summarizerInvoked "hello world" 150 40 false] ∧
     (BartModel.process .ok exTranscriber exSummarizer
        ⟨some (.raw [1]), none, none⟩).session.summary = some "hi") ∧
    ((W2vBart.process .ok exTranscriber exSummarizer
        ⟨some (.raw [1]), none, none⟩).events.filter Event.isTranscriberCall =
        [.transcriberInvoked (.raw [1])] ∧
     (W2vBart.process .ok exTranscriber exSummarizer
        ⟨some (.raw [1]), none, none⟩).session.transcript = some "hello world" ∧
     (W2vBart.process .ok exTranscriber exSummarizer
        ⟨some (.raw [1]), none, none⟩).events.filter Event.isSummarizerCall =
        [.summarizerInvoked "hello world" 150 40 false] ∧
     (W2vBart.process .ok exTranscriber exSummarizer
        ⟨some (.raw [1]), none, none⟩).session.summary = some "hi") :=
  c3_pipeline_amended ⟨some (.raw [1]), none, none⟩ (.raw [1])
    exTranscriber exSummarizer "hello world" "hi" rfl rfl rfl rfl

/-- C4 counterexample: in `whisp_t5.py`, a Process click whose
transcription adapter raises modifies previously computed results — the
stored transcript and summary from an earlier successful action are erased
(cleared to `None`) by the failed action. -/
theorem c4_counterexample :
    (WhispT5.process .ok exFailTranscriber exSummarizer
      ⟨some (.raw [1]), some "previous transcript", some "previous summary"⟩).session.transcript_text = none ∧
    (WhispT5.process .ok exFailTranscriber exSummarizer
      ⟨some (.raw [1]), some "previous transcript", some "previous summary"⟩).session.summary_text = none :=
  ⟨rfl, rfl⟩

/-- C4 amended: when the transcription adapter raises, the failure is
reported exactly once with the underlying message, the summarizer is never
invoked, and: in `bart_model.py` / `w2v_bart.py` the stored session state
is completely unmodified, while in `whisp_t5.py` the action has already
cleared the stored transcript and summary (erasing previously computed
results), so both end unset and only the audio field keeps its value. -/
theorem c4_transcription_failure_amended :
    ∀ (sB : SessionBW) (sW : WhispT5.Session) (a b : AudioData)
      (tr : Transcriber) (su : Summarizer) (e : String),
      sB.audio = some a → tr a = .error e →
      sW.audio = some b → tr b = .error e →
      ((BartModel.process .ok tr su sB).session = sB ∧
       (BartModel.process .ok tr su sB).events.filter Event.isErrorShown =
          [.errorShown ("Transcription failed: " ++ e)] ∧
       (BartModel.process .ok tr su sB).events.filter Event.isSummarizerCall = [] ∧
       (W2vBart.process .ok tr su sB).session = sB ∧
       (WhispT5.process .ok tr su sW).session =
          { audio := sW.audio, transcript_text := none, summary_text := none } ∧
       (WhispT5.process .ok tr su sW).events.filter Event.isErrorShown =
          [.errorShown ("Transcription failed: " ++ e ++ ". Please check the audio file and ensure Whisper model loaded correctly.")] ∧
       (WhispT5.process .ok tr su sW).events.filter Event.isSummarizerCall = []) := by
  intro sB sW a b tr su e haB htB haW htW
  refine ⟨?_, ?_, ?_, ?_, ?_, ?_, ?_⟩ <;>
    simp [BartModel.process, W2vBart.process, WhispT5.process, haB, htB, haW, htW,
      List.filter, Event.isErrorShown, Event.isSummarizerCall]

/-- Witness for the amended C4 at a concrete failing adapter. -/
theorem c4_transcription_failure_amended_witness :
    (BartModel.process .ok exFailTranscriber exSummarizer
        ⟨some (.raw [1]), none, none⟩).session = (⟨some (.raw [1]), none, none⟩ : SessionBW) ∧
    (BartModel.process .ok exFailTranscriber exSummarizer
        ⟨some (.raw [1]), none, none⟩).events.filter Event.isErrorShown =
        [.errorShown ("Transcription failed: " ++ "boom")] ∧
    (BartModel.process .ok exFailTranscriber exSummarizer
        ⟨some (.raw [1]), none, none⟩).events.filter Event.isSummarizerCall = [] ∧
    (W2vBart.process .ok exFailTranscriber exSummarizer
        ⟨some (.raw [1]), none, none⟩).session = (⟨some (.raw [1]), none, none⟩ : SessionBW) ∧
    (WhispT5.process .ok exFailTranscriber exSummarizer
        ⟨some (.raw [2]), some "previous transcript", none⟩).session =
        { audio := (⟨some (.raw [2]), some "previous transcript", none⟩ : WhispT5.Session).audio,
          transcript_text := none, summary_text := none } ∧
    (WhispT5.process .ok exFailTranscriber exSummarizer
        ⟨some (.raw [2]), some "previous transcript", none⟩).events.filter Event.isErrorShown =
        [.errorShown ("Transcription failed: " ++ "boom" ++ ". Please check the audio file and ensure Whisper model loaded correctly.")] ∧
    (WhispT5.process .ok exFailTranscriber exSummarizer
        ⟨some (.raw [2]), some "previous transcript", none⟩).events.filter Event.isSummarizerCall = [] :=
  c4_transcription_failure_amended ⟨some (.raw [1]), none, none⟩
    ⟨some (.raw [2]), some "previous transcript", none⟩ (.raw [1]) (.raw [2])
    exFailTranscriber exSummarizer "boom" rfl rfl rfl rfl

/-- C5 counterexample: in `bart_model.py`, when decoding an uploaded file
fails while the session already holds audio from an earlier input, the
error is reported but the session audio state is NOT left unset — it keeps
the stale previous audio. -/
theorem c5_counterexample :
    (BartModel.upload exFailDecoder .ok [2]
      ⟨some (.raw [9]), none, none⟩).session.audio = some (.raw [9]) ∧
    (BartModel.upload exFailDecoder .ok [2]
      ⟨some (.raw [9]), none, none⟩).events.filter Event.isErrorShown =
      [.errorShown "Error processing uploaded file: decode error"] :=
  ⟨rfl, rfl⟩

/-- C5 amended: on an input decode failure during upload, a recoverable
error is reported and no exception escapes the handler; in `whisp_t5.py`
the session audio is reset to unset, while in `bart_model.py` and
`w2v_bart.py` it is left unchanged (so it stays unset only when it was
already unset). -/
theorem c5_decode_failure_amended :
    ∀ (d : Decoder) (input : Bytes) (e : String) (sB : SessionBW)
      (sW : WhispT5.Session),
      d input = .error e →
      ((BartModel.upload d .ok input sB).session = sB ∧
       (BartModel.upload d .ok input sB).events =
          [.errorShown ("Error processing uploaded file: " ++ e)] ∧
       (BartModel.upload d .ok input sB).uncaughtError = none ∧
       (BartModel.upload d .ok input sB).stagedFileExistsAfter = false ∧
       (W2vBart.upload d .ok input sB).session = sB ∧
       (W2vBart.upload d .ok input sB).uncaughtError = none ∧
       (WhispT5.upload d .ok input sW).session.audio = none ∧
       (WhispT5.upload d .ok input sW).session.transcript_text = sW.transcript_text ∧
       (WhispT5.upload d .ok input sW).events =
          [.errorShown ("Error processing uploaded file: " ++ e ++ ". Please ensure FFmpeg is installed and the file is not corrupted.")] ∧
       (WhispT5.upload d .ok input sW).uncaughtError = none) := by
  intro d input e sB sW hd
  refine ⟨?_, ?_, ?_, ?_, ?_, ?_, ?_, ?_, ?_, ?_⟩ <;>
    simp [BartModel.upload, W2vBart.upload, WhispT5.upload, hd]

/-- Witness for the amended C5 at a concrete decode failure. -/
theorem c5_decode_failure_amended_witness :
    (BartModel.upload exFailDecoder .ok [2] SessionBW.init).session = SessionBW.init ∧
    (BartModel.upload exFailDecoder .ok [2] SessionBW.init).events =
        [.errorShown ("Error processing uploaded file: " ++ "decode error")] ∧
    (BartModel.upload exFailDecoder .ok [2] SessionBW.init).uncaughtError = none ∧
    (BartModel.upload exFailDecoder .ok [2] SessionBW.init).stagedFileExistsAfter = false ∧
    (W2vBart.upload exFailDecoder .ok [2] SessionBW.init).session = SessionBW.init ∧
    (W2vBart.upload exFailDecoder .ok [2] SessionBW.init).uncaughtError = none ∧
    (WhispT5.upload exFailDecoder .ok [2] WhispT5.Session.init).session.audio = none ∧
    (WhispT5.upload exFailDecoder .ok [2] WhispT5.Session.init).session.transcript_text =
        WhispT5.Session.init.transcript_text ∧
    (WhispT5.upload exFailDecoder .ok [2] WhispT5.Session.init).events =
        [.errorShown ("Error processing uploaded file: " ++ "decode error" ++ ". Please ensure FFmpeg is installed and the file is not corrupted.")] ∧
    (WhispT5.upload exFailDecoder .ok [2] WhispT5.Session.init).uncaughtError = none :=
  c5_decode_failure_amended exFailDecoder [2] "decode error"
    SessionBW.init WhispT5.Session.init rfl

/-- C6 counterexample: in every variant the microphone path stores the raw
recorded bytes directly in the session — the stored audio is not a
decoded-and-re-encoded waveform buffer, and in the wav2vec2 variant it is
neither resampled nor downmixed. -/
theorem c6_counterexample :
    (W2vBart.record (.recorded [7, 7]) SessionBW.init).session.audio = some (.raw [7, 7]) ∧
    (W2vBart.record (.recorded [7, 7]) SessionBW.init).session.audio.map AudioData.isWavBuffer = some false ∧
    (BartModel.record (.recorded [7, 7]) SessionBW.init).session.audio.map AudioData.isWavBuffer = some false ∧
    (WhispT5.record (.recorded [7, 7]) WhispT5.Session.init).session.audio.map AudioData.isWavBuffer = some false :=
  ⟨rfl, rfl, rfl, rfl⟩

/-- C6 amended: only the upload path normalizes audio before it is held in
session state — the uploaded container is decoded and re-exported as a WAV
buffer, and in the wav2vec2 variant additionally resampled to 16000 Hz and
downmixed to one channel; the microphone path stores the raw recorded
bytes without any normalization. -/
theorem c6_normalization_amended :
    ∀ (d : Decoder) (input : Bytes) (seg : Waveform) (sB : SessionBW)
      (sW : WhispT5.Session) (bs : Bytes),
      d input = .ok seg →
      ((BartModel.upload d .ok input sB).session.audio = some (.wav seg) ∧
       (W2vBart.upload d .ok input sB).session.audio =
          some (.wav (set_channels (set_frame_rate seg 16000) 1)) ∧
       (set_channels (set_frame_rate seg 16000) 1).rate = 16000 ∧
       (set_channels (set_frame_rate seg 16000) 1).channels = 1 ∧
       (W2vBart.upload d .ok input sB).session.audio.map AudioData.isWavBuffer = some true ∧
       (WhispT5.upload d .ok input sW).session.audio = some (.wav seg) ∧
       (BartModel.record (.recorded bs) sB).session.audio = some (.raw bs) ∧
       (W2vBart.record (.recorded bs) sB).session.audio = some (.raw bs) ∧
       (WhispT5.record (.recorded bs) sW).session.audio = some (.raw bs)) := by
  intro d input seg sB sW bs hd
  refine ⟨?_, ?_, rfl, rfl, ?_, ?_, rfl, rfl, rfl⟩ <;>
    simp [BartModel.upload, W2vBart.upload, WhispT5.upload, BartModel.record,
      W2vBart.record, WhispT5.record, hd, AudioData.isWavBuffer,
      set_frame_rate, set_channels]

/-- Witness for the amended C6 at a concrete decoded segment. -/
theorem c6_normalization_amended_witness :
    (BartModel.upload exDecoder .ok [3] SessionBW.init).session.audio =
        some (.wav ⟨44100, 2, [0]⟩) ∧
    (W2vBart.upload exDecoder .ok [3] SessionBW.init).session.audio =
        some (.wav (set_channels (set_frame_rate ⟨44100, 2, [0]⟩ 16000) 1)) ∧
    (set_channels (set_frame_rate (⟨44100, 2, [0]⟩ : Waveform) 16000) 1).rate = 16000 ∧
    (set_channels (set_frame_rate (⟨44100, 2, [0]⟩ : Waveform) 16000) 1).channels = 1 ∧
    (W2vBart.upload exDecoder .ok [3] SessionBW.init).session.audio.map AudioData.isWavBuffer = some true ∧
    (WhispT5.upload exDecoder .ok [3] WhispT5.Session.init).session.audio =
        some (.wav ⟨44100, 2, [0]⟩) ∧
    (BartModel.record (.recorded [4]) SessionBW.init).session.audio = some (.raw [4]) ∧
    (W2vBart.record (.recorded [4]) SessionBW.init).session.audio = some (.raw [4]) ∧
    (WhispT5.record (.recorded [4]) WhispT5.Session.init).session.audio = some (.raw [4]) :=
  c6_normalization_amended exDecoder [3] ⟨44100, 2, [0]⟩
    SessionBW.init WhispT5.Session.init [4] rfl

/-- Replacing unencodable characters always yields a latin-1 encodable
string, so the unguarded fallback `multi_cell` call in `generate_pdf`
cannot raise. -/
theorem whisp_latin1_replace_encodable (s : String) :
    WhispT5.encodable_latin1 (WhispT5.latin1_replace s) = true := by
  unfold WhispT5.encodable_latin1 WhispT5.latin1_replace
  simp only [List.all_eq_true, List.mem_map]
  rintro c ⟨c0, _, rfl⟩
  by_cases h : c0.toNat < 256 <;> simp [h]

/-- C7: for every transcript containing a character outside the latin-1
font encoding, `generate_pdf` succeeds rather than raising, producing the
transcript header, the transcript with unrepresentable characters replaced,
a recorded warning, and a summary section exactly when a summary is
present (truthy); symmetrically, an unrepresentable summary is replaced
with its own warning. -/
theorem c7_pdf_lossy_export :
    ∀ (t : String) (u : Option String),
      WhispT5.encodable_latin1 t = false →
      (WhispT5.generate_pdf t u =
        .ok { doc := [.cell "--- Transcript ---", .vspace 5,
                      .cell (WhispT5.latin1_replace t), .vspace 10] ++ summaryDocPart u,
              warnings := WhispT5.warnTranscriptMsg :: summaryWarnPart u } ∧
       (summaryDocPart u = [] ↔ (u.getD "").isEmpty = true)) ∧
      (∀ v t2 : String, v.isEmpty = false → WhispT5.encodable_latin1 v = false →
        WhispT5.encodable_latin1 t2 = true →
        WhispT5.generate_pdf t2 (some v) =
          .ok { doc := [.cell "--- Transcript ---", .vspace 5, .cell t2, .vspace 10,
                        .cell "--- Summary ---", .vspace 5,
                        .cell (WhispT5.latin1_replace v)],
                warnings := [WhispT5.warnSummaryMsg] }) := by
  intro t u h
  have hrep := whisp_latin1_replace_encodable t
  refine ⟨⟨?_, ?_⟩, ?_⟩
  · cases u with
    | none =>
        simp [WhispT5.generate_pdf, WhispT5.multi_cell, h, hrep,
          summaryDocPart, summaryWarnPart]
    | some v =>
        by_cases hv : v.isEmpty
        · simp [WhispT5.generate_pdf, WhispT5.multi_cell, h, hrep, hv,
            summaryDocPart, summaryWarnPart]
        · by_cases he : WhispT5.encodable_latin1 v
          · simp [WhispT5.generate_pdf, WhispT5.multi_cell, h, hrep, hv, he,
              summaryDocPart, summaryWarnPart]
          · have hrv := whisp_latin1_replace_encodable v
            simp [WhispT5.generate_pdf, WhispT5.multi_cell, h, hrep, hv, he, hrv,
              summaryDocPart, summaryWarnPart]
  · cases u with
    | none =>
        simp only [summaryDocPart, Option.getD]
        exact ⟨fun _ => rfl, fun _ => trivial⟩
    | some v =>
        by_cases hv : v.isEmpty
        · simp [summaryDocPart, hv]
        · by_cases he : WhispT5.encodable_latin1 v <;>
            simp [summaryDocPart, hv, he]
  · intro v t2 hv hev het2
    have hrv := whisp_latin1_replace_encodable v
    simp [WhispT5.generate_pdf, WhispT5.multi_cell, het2, hev, hrv, hv]

/-- Witness for C7 at the concrete transcript "h€" (the euro sign is not
latin-1 encodable) and the concrete unrepresentable summary "€". -/
theorem c7_pdf_lossy_export_witness :
    (WhispT5.generate_pdf "h€" (some "ok") =
      .ok { doc := [.cell "--- Transcript ---", .vspace 5,
                    .cell (WhispT5.latin1_replace "h€"), .vspace 10] ++ summaryDocPart (some "ok"),
            warnings := WhispT5.warnTranscriptMsg :: summaryWarnPart (some "ok") } ∧
     (summaryDocPart (some "ok") = [] ↔ ((some "ok" : Option String).getD "").isEmpty = true)) ∧
    WhispT5.generate_pdf "abc" (some "€") =
      .ok { doc := [.cell "--- Transcript ---", .vspace 5, .cell "abc", .vspace 10,
                    .cell "--- Summary ---", .vspace 5,
                    .cell (WhispT5.latin1_replace "€")],
            warnings := [WhispT5.warnSummaryMsg] } :=
  ⟨(c7_pdf_lossy_export "h€" (some "ok") (by decide)).1,
   (c7_pdf_lossy_export "h€" (some "ok") (by decide)).2 "€" "abc" rfl (by decide) (by decide)⟩

/-- A `whisp_t5.py` Process click never emits a PDF, whatever the fault and
adapter outcomes. -/
theorem whisp_process_no_pdf (f : StageFault) (tr : Transcriber)
    (su : Summarizer) (s : WhispT5.Session) :
    (WhispT5.process f tr su s).events.any Event.isPdfDownload = false := by
  cases hs : s.audio with
  | none => simp [WhispT5.process, hs, Event.isPdfDownload]
  | some a =>
      cases f with
      | createFails => simp [WhispT5.process, hs, Event.isPdfDownload]
      | writeFails => simp [WhispT5.process, hs, Event.isPdfDownload]
      | ok =>
          cases ht : tr a with
          | error e => simp [WhispT5.process, hs, ht, Event.isPdfDownload]
          | ok t =>
              cases he : t.isEmpty with
              | true => simp [WhispT5.process, hs, ht, he, Event.isPdfDownload]
              | false =>
                  cases hu : su t 150 40 false with
                  | error e => simp [WhispT5.process, hs, ht, he, hu, Event.isPdfDownload]
                  | ok sum => simp [WhispT5.process, hs, ht, he, hu, Event.isPdfDownload]

/-- A `whisp_t5.py` upload never emits a PDF. -/
theorem whisp_upload_no_pdf (d : Decoder) (f : StageFault) (i : Bytes)
    (s : WhispT5.Session) :
    (WhispT5.upload d f i s).events.any Event.isPdfDownload = false := by
  cases f with
  | createFails => simp [WhispT5.upload, Event.isPdfDownload]
  | writeFails => simp [WhispT5.upload, Event.isPdfDownload]
  | ok =>
      cases hd : d i with
      | error e => simp [WhispT5.upload, hd, Event.isPdfDownload]
      | ok seg => simp [WhispT5.upload, hd, Event.isPdfDownload]

/-- A `whisp_t5.py` microphone recording never emits a PDF. -/
theorem whisp_record_no_pdf (r : RecordOutcome) (s : WhispT5.Session) :
    (WhispT5.record r s).events.any Event.isPdfDownload = false := by
  cases r <;> simp [WhispT5.record, Event.isPdfDownload]

/-- C8 counterexample: the canonical fully successful `whisp_t5.py`
pipeline (transcription returns "hello world", summarization returns "hi")
emits exactly the plain-text transcript.txt and summary.txt downloads and
no PDF — `generate_pdf` is defined in the source but no handler invokes
it. -/
theorem c8_counterexample :
    (WhispT5.process .ok exTranscriber exSummarizer
      ⟨some (.raw [1]), none, none⟩).events =
      [.transcriberInvoked (.raw [1]),
       .successShown "Transcription Complete!",
       .downloadOffered "transcript.txt" "hello world",
       .summarizerInvoked "hello world" 150 40 false,
       .successShown "Summary Complete!",
       .downloadOffered "summary.txt" "hi"] ∧
    (WhispT5.process .ok exTranscriber exSummarizer
      ⟨some (.raw [1]), none, none⟩).events.any Event.isPdfDownload = false :=
  ⟨rfl, rfl⟩

/-- C8 amended: `whisp_t5.py` offers the plain-text transcript.txt and
summary.txt downloads after processing, but although it defines a PDF
generator, no user action (process, upload or record) ever emits a PDF
document to the user. -/
theorem c8_downloads_amended :
    ∀ (f : StageFault) (tr : Transcriber) (su : Summarizer)
      (s : WhispT5.Session) (d : Decoder) (i : Bytes) (r : RecordOutcome),
      (WhispT5.process f tr su s).events.any Event.isPdfDownload = false ∧
      (WhispT5.upload d f i s).events.any Event.isPdfDownload = false ∧
      (WhispT5.record r s).events.any Event.isPdfDownload = false ∧
      (∀ a t sum, s.audio = some a → tr a = .ok t → t.isEmpty = false →
        su t 150 40 false = .ok sum →
        Event.downloadOffered "transcript.txt" t ∈ (WhispT5.process .ok tr su s).events ∧
        Event.downloadOffered "summary.txt" sum ∈ (WhispT5.process .ok tr su s).events) := by
  intro f tr su s d i r
  refine ⟨whisp_process_no_pdf f tr su s, whisp_upload_no_pdf d f i s,
          whisp_record_no_pdf r s, ?_⟩
  intro a t sum ha ht he hu
  constructor <;> simp [WhispT5.process, ha, ht, he, hu]

/-- Witness for the amended C8 at a concrete successful pipeline. -/
theorem c8_downloads_amended_witness :
    (WhispT5.process .ok exTranscriber exSummarizer
      ⟨some (.raw [1]), none, none⟩).events.any Event.isPdfDownload = false ∧
    (WhispT5.upload exDecoder .ok [1]
      (⟨some (.raw [1]), none, none⟩ : WhispT5.Session)).events.any Event.isPdfDownload = false ∧
    (WhispT5.record (.recorded [1])
      (⟨some (.raw [1]), none, none⟩ : WhispT5.Session)).events.any Event.isPdfDownload = false ∧
    (Event.downloadOffered "transcript.txt" "hello world" ∈
      (WhispT5.process .ok exTranscriber exSummarizer
        ⟨some (.raw [1]), none, none⟩).events ∧
     Event.downloadOffered "summary.txt" "hi" ∈
      (WhispT5.process .ok exTranscriber exSummarizer
        ⟨some (.raw [1]), none, none⟩).events) :=
  ⟨(c8_downloads_amended .ok exTranscriber exSummarizer
      ⟨some (.raw [1]), none, none⟩ exDecoder [1] (.recorded [1])).1,
   (c8_downloads_amended .ok exTranscriber exSummarizer
      ⟨some (.raw [1]), none, none⟩ exDecoder [1] (.recorded [1])).2.1,
   (c8_downloads_amended .ok exTranscriber exSummarizer
      ⟨some (.raw [1]), none, none⟩ exDecoder [1] (.recorded [1])).2.2.1,
   (c8_downloads_amended .ok exTranscriber exSummarizer
      ⟨some (.raw [1]), none, none⟩ exDecoder [1] (.recorded [1])).2.2.2
      (.raw [1]) "hello world" "hi" rfl rfl rfl rfl⟩

/-- C9: text export is a verbatim passthrough — the download offered for a
stored transcript or summary carries exactly the stored string — and it is
deterministic in the stored values, so re-running the export on the same
stored value reproduces exactly the same text-file contents; in both
`bart_model.py` and `w2v_bart.py`. -/
theorem c9_text_export :
    ∀ (s1 s2 : SessionBW) (t u : String),
      (s1.transcript = some t →
        Event.downloadOffered "transcript.txt" t ∈ BartModel.renderResults s1) ∧
      (s1.summary = some u →
        Event.downloadOffered "summary.txt" u ∈ BartModel.renderResults s1) ∧
      (s1.transcript = s2.transcript → s1.summary = s2.summary →
        BartModel.renderResults s1 = BartModel.renderResults s2) ∧
      (s1.transcript = some t →
        Event.downloadOffered "transcript.txt" t ∈ W2vBart.renderResults s1) ∧
      (s1.summary = some u →
        Event.downloadOffered "summary.txt" u ∈ W2vBart.renderResults s1) ∧
      (s1.transcript = s2.transcript → s1.summary = s2.summary →
        W2vBart.renderResults s1 = W2vBart.renderResults s2) := by
  intro s1 s2 t u
  refine ⟨?_, ?_, ?_, ?_, ?_, ?_⟩
  · intro h
    cases hu2 : s1.summary <;> simp [BartModel.renderResults, h, hu2]
  · intro h
    cases ht2 : s1.transcript <;> simp [BartModel.renderResults, h, ht2]
  · intro h1 h2
    unfold BartModel.renderResults
    rw [h1, h2]
  · intro h
    cases hu2 : s1.summary <;> simp [W2vBart.renderResults, h, hu2]
  · intro h
    cases ht2 : s1.transcript <;> simp [W2vBart.renderResults, h, ht2]
  · intro h1 h2
    unfold W2vBart.renderResults
    rw [h1, h2]

/-- Witness for C9 at a concrete stored transcript "a" and summary "b". -/
theorem c9_text_export_witness :
    (Event.downloadOffered "transcript.txt" "a" ∈
      BartModel.renderResults ⟨none, some "a", some "b"⟩) ∧
    (Event.downloadOffered "summary.txt" "b" ∈
      BartModel.renderResults ⟨none, some "a", some "b"⟩) ∧
    (BartModel.renderResults ⟨none, some "a", some "b"⟩ =
      BartModel.renderResults ⟨some (.raw [1]), some "a", some "b"⟩) ∧
    (Event.downloadOffered "transcript.txt" "a" ∈
      W2vBart.renderResults ⟨none, some "a", some "b"⟩) ∧
    (Event.downloadOffered "summary.txt" "b" ∈
      W2vBart.renderResults ⟨none, some "a", some "b"⟩) ∧
    (W2vBart.renderResults ⟨none, some "a", some "b"⟩ =
      W2vBart.renderResults ⟨some (.raw [1]), some "a", some "b"⟩) :=
  ⟨(c9_text_export ⟨none, some "a", some "b"⟩ ⟨some (.raw [1]), some "a", some "b"⟩ "a" "b").1 rfl,
   (c9_text_export ⟨none, some "a", some "b"⟩ ⟨some (.raw [1]), some "a", some "b"⟩ "a" "b").2.1 rfl,
   (c9_text_export ⟨none, some "a", some "b"⟩ ⟨some (.raw [1]), some "a", some "b"⟩ "a" "b").2.2.1 rfl rfl,
   (c9_text_export ⟨none, some "a", some "b"⟩ ⟨some (.raw [1]), some "a", some "b"⟩ "a" "b").2.2.2.1 rfl,
   (c9_text_export ⟨none, some "a", some "b"⟩ ⟨some (.raw [1]), some "a", some "b"⟩ "a" "b").2.2.2.2.1 rfl,
   (c9_text_export ⟨none, some "a", some "b"⟩ ⟨some (.raw [1]), some "a", some "b"⟩ "a" "b").2.2.2.2.2 rfl rfl⟩
